import Mathlib

/-!
Verification of the NICSSIM control core against its design description.

The embedding covers:
* `PLC1._logic` (src/src/PLC1.py), the per-cycle control logic, modelled as the
  ordered list of tag writes one cycle performs;
* `FactorySimulation._logic` (src/src/FactorySimulation.py), the physics tick,
  modelled as a stateful computation over a fallible tag store;
* `AttackerRemote` (src/src/AttackerRemote.py), modelled as a step relation for
  the message/dispatch interleaving and a pure command parser/dispatcher.

Numeric values are rationals; the Python floats in these files are decimal
literals combined by +, -, *, /, min and max, so rational arithmetic follows
the same algebra.
-/

namespace NICSSIM

/-! ### PLC1 control cycle (src/src/PLC1.py) -/

/-- Output tags written by `PLC1._logic`. -/
inductive OutTag
  | rodPos
  | rcpCmd
  | coolCmd
  | loopCmd
  | heaterCmd
  | sprayCmd
  | pvCmd
  | reliefStatus
  | alarmStatus
  deriving DecidableEq

/-- Everything one `PLC1._logic` cycle reads: sensor tags, limit tags,
actuator command tags, mode tags, relief status and the alarm tag
(PLC1.py lines 19-33 and the per-branch reads). -/
structure PLCIn where
  flux : ℚ
  tIn : ℚ
  tOut : ℚ
  pCore : ℚ
  pSgIn : ℚ
  flow : ℚ
  rad : ℚ
  fluxSp : ℚ
  tmax : ℚ
  pmax : ℚ
  phihi : ℚ
  fmin : ℚ
  radmax : ℚ
  rodPos : ℚ
  rodMode : ℚ
  rcpCmd : ℚ
  rcpMode : ℚ
  coolCmd : ℚ
  coolMode : ℚ
  loopCmd : ℚ
  loopMode : ℚ
  heaterCmd : ℚ
  heaterMode : ℚ
  sprayCmd : ℚ
  sprayMode : ℚ
  pvCmd : ℚ
  pvMode : ℚ
  reliefStatus : ℚ
  alarm : ℚ

/-- `PLC1.HYST` (PLC1.py line 8). -/
def HYST : ℚ := 0.5

/-- `PLC1.P_HYST` (PLC1.py line 9). -/
def P_HYST : ℚ := 0.05

/-- `PLC1.RAD_HYST` (PLC1.py line 10). -/
def RAD_HYST : ℚ := 0.02

/-- Modelled from the spec: `PLC._check_manual_input` lives in `ics_sim.Device`,
which is not part of the source snapshot.  Per spec sections 3 and 4.3 a mode
tag signals manual when it holds 1 or 2 (auto is 3), and when it signals manual
the guard makes the controller skip the computation and write nothing. -/
def isManual (mode : ℚ) : Bool := mode == 1 || mode == 2

/-- Python `min(max(x, lo), hi)` as used throughout `PLC1._logic`. -/
def clamp (lo hi x : ℚ) : ℚ := min (max x lo) hi

/-- Control-rod branch value (PLC1.py lines 37-41). -/
def rodNext (s : PLCIn) : ℚ :=
  clamp 0 100 (s.rodPos + (s.flux - s.fluxSp) * 4)

/-- Primary pump speed branch value (PLC1.py lines 45-50). -/
def rcpNext (s : PLCIn) : ℚ :=
  let cmd := s.rcpCmd
  let cmd :=
    if s.tOut > s.tmax - 3 ∨ s.flow < s.fmin + 0.05 then cmd + 0.02
    else if s.tOut < s.tmax - 8 ∧ s.flow > s.fmin + 0.2 then cmd - 0.01
    else cmd
  clamp 0 1 cmd

/-- Heat removal valve branch value (PLC1.py lines 54-59). -/
def coolNext (s : PLCIn) : ℚ :=
  let v := s.coolCmd
  let v :=
    if s.tOut > s.tmax - 2 then v + 0.02
    else if s.tOut < s.tmax - 10 then v - 0.01
    else v
  clamp 0 1 v

/-- Primary loop valve branch value (PLC1.py lines 63-69). -/
def loopNext (s : PLCIn) : ℚ :=
  let lv := s.loopCmd
  let lv :=
    if s.flow < s.fmin + 0.05 ∨ s.tOut > s.tmax - 5 then lv + 0.02
    else if s.flow > s.fmin + 0.2 ∧ s.tOut < s.tmax - 12 then lv - 0.01
    else lv
  clamp 0 1 lv

/-- Pressurizer heater branch value (PLC1.py lines 73-78). -/
def heaterNext (s : PLCIn) : ℚ :=
  let h := s.heaterCmd
  let h :=
    if s.pCore < s.pmax - P_HYST then h + 0.03
    else if s.pCore > s.pmax + 0.02 then h - 0.02
    else h
  clamp 0 1 h

/-- Pressurizer spray branch value (PLC1.py lines 81-86). -/
def sprayNext (s : PLCIn) : ℚ :=
  let sp := s.sprayCmd
  let sp :=
    if s.pCore > s.pmax + 0.03 then sp + 0.03
    else if s.pCore < s.pmax - P_HYST then sp - 0.02
    else sp
  clamp 0 1 sp

/-- Relief valve status value (PLC1.py lines 89-93): open above the high-high
threshold, closed below `pmax - 0.05`, previous value in between. -/
def reliefNext (s : PLCIn) : ℚ :=
  if s.pCore > s.phihi then 1
  else if s.pCore < s.pmax - 0.05 then 0
  else s.reliefStatus

/-- Pressurizer valve command value (PLC1.py line 98); Python float truthiness
of `relief_open`. -/
def pvNext (s : PLCIn) : ℚ :=
  if reliefNext s ≠ 0 then 1 else 0

/-- Alarm trip condition (PLC1.py line 103). -/
abbrev trip (s : PLCIn) : Prop :=
  s.tOut > s.tmax ∨ s.pCore > s.pmax ∨ s.flow < s.fmin ∨ s.rad > s.radmax

/-- Alarm clear condition (PLC1.py line 105): every trip input back inside its
hysteresis band. -/
abbrev clearOk (s : PLCIn) : Prop :=
  s.tOut < s.tmax - HYST ∧ s.pCore < s.pmax - P_HYST ∧
    s.flow > s.fmin + 0.02 ∧ s.rad < s.radmax - RAD_HYST

/-- A guarded write: the empty list when the manual guard says skip, otherwise
the single write the branch performs. -/
def guardW (skip : Bool) (e : OutTag × ℚ) : List (OutTag × ℚ) :=
  if skip then [] else [e]

/-- The ordered list of `_set` calls one `PLC1._logic` cycle performs
(PLC1.py lines 36-109), in program order. -/
def plc1WriteLog (s : PLCIn) : List (OutTag × ℚ) :=
  guardW (isManual s.rodMode) (.rodPos, rodNext s)
    ++ guardW (isManual s.rcpMode) (.rcpCmd, rcpNext s)
    ++ guardW (isManual s.coolMode) (.coolCmd, coolNext s)
    ++ guardW (isManual s.loopMode) (.loopCmd, loopNext s)
    ++ guardW (isManual s.heaterMode) (.heaterCmd, heaterNext s)
    ++ guardW (isManual s.sprayMode) (.sprayCmd, sprayNext s)
    ++ [(.reliefStatus, reliefNext s)]
    ++ guardW (isManual s.pvMode) (.pvCmd, pvNext s)
    ++ (if s.alarm ≠ 0 then
          (if clearOk s then [(.alarmStatus, 0)] else [])
        else
          (if trip s then [(.alarmStatus, 1)] else []))

/-- Values of the writable tags before the cycle. -/
def outVal (s : PLCIn) : OutTag → ℚ
  | .rodPos => s.rodPos
  | .rcpCmd => s.rcpCmd
  | .coolCmd => s.coolCmd
  | .loopCmd => s.loopCmd
  | .heaterCmd => s.heaterCmd
  | .sprayCmd => s.sprayCmd
  | .pvCmd => s.pvCmd
  | .reliefStatus => s.reliefStatus
  | .alarmStatus => s.alarm

/-- Apply a write log to a tag valuation, later writes winning. -/
def applyLog : List (OutTag × ℚ) → (OutTag → ℚ) → OutTag → ℚ
  | [], f => f
  | (t, v) :: rest, f => applyLog rest (fun u => if u = t then v else f u)

/-- Tag values after one `PLC1._logic` cycle. -/
def plc1Run (s : PLCIn) : OutTag → ℚ :=
  applyLog (plc1WriteLog s) (outVal s)

/-- Modelled from the spec: TagStore `set` semantics (spec section 4.1) — every
successful `set` updates `last_write_timestamp`; the `ics_sim` connector code is
not in the source snapshot.  Applies a write log to a timestamped valuation,
stamping each written tag with `now`. -/
def applyLogT : List (OutTag × ℚ) → (OutTag → ℚ × ℕ) → ℕ → OutTag → ℚ × ℕ
  | [], f, _ => f
  | (t, v) :: rest, f, now =>
      applyLogT rest (fun u => if u = t then (v, now) else f u) now

theorem applyLog_append (a b : List (OutTag × ℚ)) (f : OutTag → ℚ) :
    applyLog (a ++ b) f = applyLog b (applyLog a f) := by
  induction a generalizing f with
  | nil => rfl
  | cons e rest ih => cases e; simp [applyLog, ih]

theorem applyLog_guardW (b : Bool) (e : OutTag × ℚ) (f : OutTag → ℚ) (u : OutTag) :
    applyLog (guardW b e) f u =
      if b then f u else if u = e.1 then e.2 else f u := by
  cases e; cases b <;> simp [guardW, applyLog]

theorem applyLog_not_mem {l : List (OutTag × ℚ)} {t : OutTag}
    (h : t ∉ l.map Prod.fst) (f : OutTag → ℚ) : applyLog l f t = f t := by
  induction l generalizing f with
  | nil => rfl
  | cons e rest ih =>
      cases e with
      | mk u v =>
        simp only [List.map_cons, List.mem_cons] at h
        push_neg at h
        simp [applyLog, ih h.2, h.1]

theorem applyLogT_not_mem {l : List (OutTag × ℚ)} {t : OutTag}
    (h : t ∉ l.map Prod.fst) (f : OutTag → ℚ × ℕ) (now : ℕ) :
    applyLogT l f now t = f t := by
  induction l generalizing f with
  | nil => rfl
  | cons e rest ih =>
      cases e with
      | mk u v =>
        simp only [List.map_cons, List.mem_cons] at h
        push_neg at h
        simp [applyLogT, ih h.2, h.1]

theorem mem_map_fst_guardW {b : Bool} {e : OutTag × ℚ} {x : OutTag}
    (h : x ∈ (guardW b e).map Prod.fst) : x = e.1 := by
  cases b <;> simp [guardW] at h
  exact h

theorem applyLog_condSingle (c1 c2 c3 : Prop) [Decidable c1] [Decidable c2]
    [Decidable c3] (tag : OutTag) (v1 v2 : ℚ) (g : OutTag → ℚ) (u : OutTag) :
    applyLog
      (if c1 then (if c2 then [(tag, v1)] else [])
       else (if c3 then [(tag, v2)] else [])) g u =
      if u = tag then
        (if c1 then (if c2 then v1 else g u) else (if c3 then v2 else g u))
      else g u := by
  by_cases h1 : c1 <;> by_cases h2 : c2 <;> by_cases h3 : c3 <;>
    by_cases h4 : u = tag <;> simp [h1, h2, h3, h4, applyLog]

theorem plc1Run_apply (s : PLCIn) (t : OutTag) :
    plc1Run s t =
      match t with
      | .rodPos => if isManual s.rodMode then s.rodPos else rodNext s
      | .rcpCmd => if isManual s.rcpMode then s.rcpCmd else rcpNext s
      | .coolCmd => if isManual s.coolMode then s.coolCmd else coolNext s
      | .loopCmd => if isManual s.loopMode then s.loopCmd else loopNext s
      | .heaterCmd => if isManual s.heaterMode then s.heaterCmd else heaterNext s
      | .sprayCmd => if isManual s.sprayMode then s.sprayCmd else sprayNext s
      | .pvCmd => if isManual s.pvMode then s.pvCmd else pvNext s
      | .reliefStatus => reliefNext s
      | .alarmStatus =>
          if s.alarm ≠ 0 then (if clearOk s then 0 else s.alarm)
          else (if trip s then 1 else 0) := by
  cases t <;>
    simp [plc1Run, plc1WriteLog, applyLog_append, applyLog_guardW, applyLog_condSingle,
      applyLog, outVal] <;>
    split_ifs <;> simp_all

theorem plc1Run_alarm (s : PLCIn) :
    plc1Run s .alarmStatus =
      if s.alarm ≠ 0 then (if clearOk s then 0 else s.alarm)
      else (if trip s then 1 else 0) :=
  plc1Run_apply s .alarmStatus

theorem plc1Run_relief (s : PLCIn) :
    plc1Run s .reliefStatus = reliefNext s :=
  plc1Run_apply s .reliefStatus

/-- Nominal tag values: the `default` column of `Configs.TAG.TAG_LIST`. -/
def sNom : PLCIn :=
  { flux := 0.8, tIn := 290, tOut := 300, pCore := 15, pSgIn := 14.9, flow := 0.6,
    rad := 0.02, fluxSp := 0.9, tmax := 320, pmax := 15.5, phihi := 15.9,
    fmin := 0.5, radmax := 0.2, rodPos := 50, rodMode := 3, rcpCmd := 0.6,
    rcpMode := 3, coolCmd := 0.5, coolMode := 3, loopCmd := 0.5, loopMode := 3,
    heaterCmd := 0.2, heaterMode := 3, sprayCmd := 0, sprayMode := 3, pvCmd := 0,
    pvMode := 3, reliefStatus := 0, alarm := 0 }

/-- Nominal state with every actuator in a manual mode (1 or 2) and distinctive
manually-written command values. -/
def sManual : PLCIn :=
  { sNom with
    rodMode := 1, rcpMode := 2, coolMode := 1, loopMode := 2,
    heaterMode := 1, sprayMode := 2, pvMode := 1, rodPos := 77, rcpCmd := 0.9,
    coolCmd := 0.8, loopCmd := 0.7, heaterCmd := 0.6, sprayCmd := 0.5,
    pvCmd := 0.4 }

/-- C1: in one ControlLogic cycle, each of the seven guarded actuator command
tags (control rods, pump speed, cooling valve, loop valve, pressurizer heater,
spray, pressurizer valve) keeps its pre-cycle value whenever its paired mode
tag holds a manual value. -/
theorem manual_mode_preserves_commands (s : PLCIn) :
    (isManual s.rodMode = true → plc1Run s .rodPos = s.rodPos) ∧
    (isManual s.rcpMode = true → plc1Run s .rcpCmd = s.rcpCmd) ∧
    (isManual s.coolMode = true → plc1Run s .coolCmd = s.coolCmd) ∧
    (isManual s.loopMode = true → plc1Run s .loopCmd = s.loopCmd) ∧
    (isManual s.heaterMode = true → plc1Run s .heaterCmd = s.heaterCmd) ∧
    (isManual s.sprayMode = true → plc1Run s .sprayCmd = s.sprayCmd) ∧
    (isManual s.pvMode = true → plc1Run s .pvCmd = s.pvCmd) := by
  refine ⟨?_, ?_, ?_, ?_, ?_, ?_, ?_⟩ <;> intro h <;> simp [plc1Run_apply, h]

/-- Witness for C1: with every mode tag manual (a mix of the two manual values
1 and 2), each manually written command value survives the cycle. -/
theorem manual_mode_preserves_commands_witness :
    plc1Run sManual .rodPos = 77 ∧ plc1Run sManual .rcpCmd = 0.9 ∧
    plc1Run sManual .coolCmd = 0.8 ∧ plc1Run sManual .loopCmd = 0.7 ∧
    plc1Run sManual .heaterCmd = 0.6 ∧ plc1Run sManual .sprayCmd = 0.5 ∧
    plc1Run sManual .pvCmd = 0.4 := by
  have h := manual_mode_preserves_commands sManual
  exact ⟨h.1 (by decide), h.2.1 (by decide), h.2.2.1 (by decide),
    h.2.2.2.1 (by decide), h.2.2.2.2.1 (by decide), h.2.2.2.2.2.1 (by decide),
    h.2.2.2.2.2.2 (by decide)⟩

/-- C2: the alarm latch.  From clear (0) it trips to 1 exactly when one of the
four trip conditions holds; from tripped (1) it returns to 0 exactly when all
four inputs are inside their hysteresis bands simultaneously (outlet
temperature a full `HYST` below its max, pressure a full `P_HYST` below its
max, flow at least 0.02 above its min, radiation a full `RAD_HYST` below its
max), and any still-violated condition keeps it at 1. -/
theorem alarm_latch_behavior (s : PLCIn) :
    (s.alarm = 0 →
      ((plc1Run s .alarmStatus = 1 ↔
          (s.tOut > s.tmax ∨ s.pCore > s.pmax ∨ s.flow < s.fmin ∨
            s.rad > s.radmax)) ∧
        (¬(s.tOut > s.tmax ∨ s.pCore > s.pmax ∨ s.flow < s.fmin ∨
            s.rad > s.radmax) →
          plc1Run s .alarmStatus = 0))) ∧
    (s.alarm = 1 →
      ((plc1Run s .alarmStatus = 0 ↔
          (s.tOut < s.tmax - HYST ∧ s.pCore < s.pmax - P_HYST ∧
            s.flow > s.fmin + 0.02 ∧ s.rad < s.radmax - RAD_HYST)) ∧
        ((s.tOut > s.tmax ∨ s.pCore > s.pmax ∨ s.flow < s.fmin ∨
            s.rad > s.radmax) →
          plc1Run s .alarmStatus = 1))) := by
  rw [plc1Run_alarm]
  constructor
  · intro h0
    rw [if_neg (by simp [h0])]
    constructor
    · by_cases ht : trip s <;> simp [ht, trip]
    · intro hnt
      rw [if_neg hnt]
  · intro h1
    rw [if_pos (by simp [h1])]
    have hne : (1 : ℚ) ≠ 0 := one_ne_zero
    constructor
    · by_cases hc : clearOk s <;> simp [hc, clearOk, h1, hne]
    · intro hv
      have hnc : ¬ clearOk s := by
        rintro ⟨c1, c2, c3, c4⟩
        have e1 : HYST = 1/2 := by norm_num [HYST]
        have e2 : P_HYST = 1/20 := by norm_num [P_HYST]
        have e3 : RAD_HYST = 1/50 := by norm_num [RAD_HYST]
        rw [e1] at c1; rw [e2] at c2; rw [e3] at c4
        rcases hv with h | h | h | h
        · linarith
        · linarith
        · linarith
        · linarith
      rw [if_neg hnc, h1]

/-- Trip scenario: nominal tags except the outlet temperature one degree above
its maximum. -/
def sTripA : PLCIn := { sNom with tOut := 321 }

/-- Witness for C2: from clear with an over-temperature, one cycle trips the
alarm; from tripped with the same over-temperature, the alarm stays tripped. -/
theorem alarm_latch_behavior_witness :
    plc1Run sTripA .alarmStatus = 1 ∧
    plc1Run { sTripA with alarm := 1 } .alarmStatus = 1 := by
  refine ⟨((alarm_latch_behavior sTripA).1 rfl).1.mpr ?_,
    ((alarm_latch_behavior { sTripA with alarm := 1 }).2 rfl).2 ?_⟩
  · exact Or.inl (by norm_num [sTripA, sNom])
  · exact Or.inl (by norm_num [sTripA, sNom])

/-- C4: relief valve dead band.  When the two thresholds are in their designed
order (close threshold `pmax - 0.05` below the open threshold `phihi`), one
cycle opens the valve above `phihi`, closes it below `pmax - 0.05`, and keeps
the prior status anywhere between the two thresholds. -/
theorem relief_valve_band (s : PLCIn) (hband : s.pmax - 0.05 < s.phihi) :
    (s.phihi < s.pCore → plc1Run s .reliefStatus = 1) ∧
    (s.pCore < s.pmax - 0.05 → plc1Run s .reliefStatus = 0) ∧
    (s.pmax - 0.05 ≤ s.pCore → s.pCore ≤ s.phihi →
      plc1Run s .reliefStatus = s.reliefStatus) := by
  rw [plc1Run_relief]
  unfold reliefNext
  refine ⟨?_, ?_, ?_⟩
  · intro h
    rw [if_pos h]
  · intro h
    rw [if_neg (by linarith), if_pos h]
  · intro h1 h2
    rw [if_neg (by linarith), if_neg (by linarith)]

/-- Witness for C4: with nominal limits (`pmax` 15.5, `phihi` 15.9), pressure
16 opens the valve, pressure 15 closes it, and pressure 15.7 in the dead band
keeps the prior (closed) status. -/
theorem relief_valve_band_witness :
    plc1Run { sNom with pCore := 16 } .reliefStatus = 1 ∧
    plc1Run { sNom with pCore := 15 } .reliefStatus = 0 ∧
    plc1Run { sNom with pCore := 15.7 } .reliefStatus = 0 := by
  refine ⟨(relief_valve_band { sNom with pCore := 16 } (by norm_num [sNom])).1
      (by norm_num [sNom]),
    (relief_valve_band { sNom with pCore := 15 } (by norm_num [sNom])).2.1
      (by norm_num [sNom]), ?_⟩
  have h := (relief_valve_band { sNom with pCore := 15.7 }
      (by norm_num [sNom])).2.2 (by norm_num [sNom]) (by norm_num [sNom])
  simpa [sNom] using h

/-- C9: when no latch transition is due — alarm clear with no trip condition,
or alarm tripped with the clear condition unmet — the cycle does not write the
alarm tag at all, so both its value and its `last_write_timestamp` survive the
cycle unchanged. -/
theorem alarm_written_only_on_transition (s : PLCIn)
    (h : (s.alarm = 0 ∧
            ¬(s.tOut > s.tmax ∨ s.pCore > s.pmax ∨ s.flow < s.fmin ∨
              s.rad > s.radmax)) ∨
         (s.alarm ≠ 0 ∧
            ¬(s.tOut < s.tmax - HYST ∧ s.pCore < s.pmax - P_HYST ∧
              s.flow > s.fmin + 0.02 ∧ s.rad < s.radmax - RAD_HYST))) :
    OutTag.alarmStatus ∉ (plc1WriteLog s).map Prod.fst ∧
    (∀ (f : OutTag → ℚ × ℕ) (now : ℕ),
      applyLogT (plc1WriteLog s) f now .alarmStatus = f .alarmStatus) := by
  have halarmlist :
      (if s.alarm ≠ 0 then
        (if clearOk s then [(OutTag.alarmStatus, (0 : ℚ))] else [])
      else
        (if trip s then [(OutTag.alarmStatus, (1 : ℚ))] else [])) = [] := by
    rcases h with ⟨h0, hnt⟩ | ⟨h1, hnc⟩
    · simp only [h0]
      simp [trip, hnt]
    · simp only [if_pos h1]
      simp [clearOk, hnc]
  have hnm : OutTag.alarmStatus ∉ (plc1WriteLog s).map Prod.fst := by
    intro hmem
    unfold plc1WriteLog at hmem
    rw [halarmlist] at hmem
    simp only [List.map_append, List.mem_append, List.map_nil, List.map_cons,
      List.mem_cons, List.singleton_append, List.not_mem_nil, or_false] at hmem
    rcases hmem with ((((((h' | h') | h') | h') | h') | h') | he) | h'
    · exact absurd (mem_map_fst_guardW h') (by simp)
    · exact absurd (mem_map_fst_guardW h') (by simp)
    · exact absurd (mem_map_fst_guardW h') (by simp)
    · exact absurd (mem_map_fst_guardW h') (by simp)
    · exact absurd (mem_map_fst_guardW h') (by simp)
    · exact absurd (mem_map_fst_guardW h') (by simp)
    · exact absurd he (by decide)
    · exact absurd (mem_map_fst_guardW h') (by simp)
  exact ⟨hnm, fun f now => applyLogT_not_mem hnm f now⟩

/-- Witness for C9: in the nominal state (alarm clear, nothing tripping) the
alarm tag's timestamped entry is exactly what it was before the cycle. -/
theorem alarm_written_only_on_transition_witness :
    applyLogT (plc1WriteLog sNom) (fun _ => ((0 : ℚ), (0 : ℕ))) 7
      .alarmStatus = ((0 : ℚ), (0 : ℕ)) :=
  (alarm_written_only_on_transition sNom
    (Or.inl ⟨rfl, by norm_num [sNom]⟩)).2 (fun _ => ((0 : ℚ), (0 : ℕ))) 7

/-! ### PhysicsEngine tick (src/src/FactorySimulation.py) -/

/-- Tags accessed by `FactorySimulation._logic`. -/
inductive PTag
  | flux
  | tempIn
  | tempOut
  | pressure
  | flow
  | sgPin
  | rad
  | loopValvePos
  | rcpCmd
  | coolCmd
  | loopCmd
  | rodPos
  | fluxSp
  | heaterCmd
  | sprayCmd
  | reliefStatus
  deriving DecidableEq

/-- The sensor tags of `Configs.TAG.TAG_LIST` (kind `input`) among the tags the
tick touches. -/
def isSensor : PTag → Bool
  | .flux | .tempIn | .tempOut | .pressure | .flow | .sgPin | .rad
  | .loopValvePos => true
  | _ => false

/-- Modelled from the spec: the TagStore (spec section 4.1) with its failure
modes — `get`/`set` fail when the backing store is unreachable for that tag;
the `ics_sim` connector code is not in the source snapshot.  `failOn` marks the
tags whose access fails during this tick. -/
structure Store where
  val : PTag → ℚ
  failOn : PTag → Bool

def storeGet (st : Store) (t : PTag) : Option ℚ :=
  if st.failOn t then none else some (st.val t)

def storeSet (st : Store) (t : PTag) (v : ℚ) : Option Store :=
  if st.failOn t then none
  else some { st with val := fun u => if u = t then v else st.val u }

/-- Per-instance mutable state of `FactorySimulation`: the two lagged valve
positions (`_valve_eff`, `_loop_valve_eff`) and the `_rad_spike` dict. -/
structure Internal where
  valveEff : ℚ
  loopValveEff : ℚ
  spikeActive : Bool
  spikeUntil : ℚ
  spikeLevel : ℚ

/-- Physics constants.  The named constants mirror `Configs.PHYSICS`; the five
`SD_*` fields are the standard deviations of the `random.gauss` calls that are
written as literals at the call sites in `FactorySimulation._logic` (0.002,
0.02, 0.002, 0.001, 0.005), lifted into the configuration so that the
noise-disabled (zero-variance) configuration of the spec is expressible. -/
structure PhysicsCfg where
  AMBIENT_TEMP : ℚ
  HEAT_GAIN_K : ℚ
  COOLING_K : ℚ
  PRESSURE_K_TEMP : ℚ
  PRESSURE_K_HEATER : ℚ
  PRESSURE_K_SPRAY : ℚ
  PRESSURE_K_RELIEF : ℚ
  FLOW_INERTIA : ℚ
  VALVE_INERTIA : ℚ
  FLUX_INERTIA : ℚ
  RAD_BASELINE : ℚ
  RAD_SPIKE_MAX : ℚ
  RAD_SPIKE_PROB : ℚ
  RAD_SPIKE_SEC_LO : ℚ
  RAD_SPIKE_SEC_HI : ℚ
  SD_FLUX : ℚ
  SD_TEMP_OUT : ℚ
  SD_PRESSURE : ℚ
  SD_SG_PIN : ℚ
  SD_RAD : ℚ

/-- The values of `Configs.PHYSICS` (Configs.py lines 31-48) together with the
noise standard deviations hard-coded in `FactorySimulation._logic`. -/
def defaultPhysics : PhysicsCfg :=
  { AMBIENT_TEMP := 290, HEAT_GAIN_K := 0.008, COOLING_K := 0.004,
    PRESSURE_K_TEMP := 0.035, PRESSURE_K_HEATER := 0.020,
    PRESSURE_K_SPRAY := 0.030, PRESSURE_K_RELIEF := 0.080,
    FLOW_INERTIA := 0.003, VALVE_INERTIA := 0.003, FLUX_INERTIA := 0.002,
    RAD_BASELINE := 0.02, RAD_SPIKE_MAX := 0.50, RAD_SPIKE_PROB := 0.0005,
    RAD_SPIKE_SEC_LO := 3, RAD_SPIKE_SEC_HI := 12,
    SD_FLUX := 0.002, SD_TEMP_OUT := 0.02, SD_PRESSURE := 0.002,
    SD_SG_PIN := 0.001, SD_RAD := 0.005 }

/-- One tick's pseudo-random draws: the five standard-normal draws feeding the
`random.gauss` calls, the `random.random()` draw deciding spike activation, and
the two `random.uniform` unit draws for spike duration and level. -/
structure Rand where
  zFlux : ℚ
  zTempOut : ℚ
  zPressure : ℚ
  zSgPin : ℚ
  zRad : ℚ
  uSpike : ℚ
  uDur : ℚ
  uLevel : ℚ

/-- `random.gauss(mu, sigma)` realized from a standard draw `z`. -/
def gauss (mu sigma z : ℚ) : ℚ := mu + sigma * z

/-- `random.uniform(lo, hi)` realized from a unit draw `u`. -/
def uniformD (lo hi u : ℚ) : ℚ := lo + (hi - lo) * u

/-- Python `max(0.0, min(1.0, x))` (FactorySimulation.py lines 41-42). -/
def clamp01 (x : ℚ) : ℚ := max 0 (min 1 x)

/-- Loop-time delta clamp (FactorySimulation.py lines 15-17). -/
def dtClamp (dtRaw : ℚ) : ℚ := if dtRaw ≤ 0 then 1 else dtRaw

/-- Reactivity from rod position (FactorySimulation.py line 48). -/
def reactivityOf (rodPos : ℚ) : ℚ := max 0.05 (1 - rodPos / 120)

/-- Flux target (FactorySimulation.py line 49). -/
def fluxTargetOf (fluxSp rodPos : ℚ) : ℚ := max 0 (fluxSp * reactivityOf rodPos)

/-- First-order valve lag (FactorySimulation.py lines 41-42). -/
def valveEffNext (cfg : PhysicsCfg) (eff cmd dt : ℚ) : ℚ :=
  clamp01 (eff + (cmd - eff) * (cfg.VALVE_INERTIA * dt))

/-- Pressure update (FactorySimulation.py lines 64-75): pressurizer
contributions first (heater up, spray down, relief down when open), then the
0.98/0.02 relaxation toward the temperature-derived baseline, then noise. -/
def pressureNext (cfg : PhysicsCfg)
    (pressure tempOutNew heaterCmd sprayCmd reliefOpen dts z : ℚ) : ℚ :=
  let p1 := pressure + cfg.PRESSURE_K_HEATER * heaterCmd * dts
  let p2 := p1 - cfg.PRESSURE_K_SPRAY * sprayCmd * dts
  let p3 := p2 - cfg.PRESSURE_K_RELIEF * reliefOpen * dts
  let base := 14.7 + cfg.PRESSURE_K_TEMP * max 0 (tempOutNew - cfg.AMBIENT_TEMP)
  0.98 * p3 + 0.02 * base + gauss 0 cfg.SD_PRESSURE z

/-- Tick computations over the fallible store: a failing `get`/`set` raises,
aborting the remainder, while the store and internal state keep whatever the
operations so far produced (Python exception semantics). -/
def PhysM (α : Type) : Type := Store → Internal → Option α × Store × Internal

instance : Monad PhysM where
  pure a := fun st i => (some a, st, i)
  bind x f := fun st i =>
    match x st i with
    | (some a, st1, i1) => f a st1 i1
    | (none, st1, i1) => (none, st1, i1)

/-- Monadic read of a tag (`self._get`). -/
def mget (t : PTag) : PhysM ℚ := fun st i =>
  match storeGet st t with
  | some v => (some v, st, i)
  | none => (none, st, i)

/-- Monadic write of a tag (`self._set`). -/
def mset (t : PTag) (v : ℚ) : PhysM Unit := fun st i =>
  match storeSet st t v with
  | some st1 => (some (), st1, i)
  | none => (none, st, i)

/-- Read the device's internal (non-store) state. -/
def getInternal : PhysM Internal := fun st i => (some i, st, i)

/-- Update the device's internal (non-store) state. -/
def setInternal (g : Internal → Internal) : PhysM Unit :=
  fun st i => (some (), st, g i)

/-- One `FactorySimulation._logic` tick (FactorySimulation.py lines 14-105),
with the wall clock `now` (seconds) and the tick's random draws passed in. -/
def tick (cfg : PhysicsCfg) (dtRaw now : ℚ) (r : Rand) : PhysM Unit := do
  let dt := dtClamp dtRaw
  let dts := dt / 1000
  let flux ← mget .flux
  let tempIn ← mget .tempIn
  let tempOut ← mget .tempOut
  let pressure ← mget .pressure
  let flow ← mget .flow
  let rcpCmd ← mget .rcpCmd
  let coolValve ← mget .coolCmd
  let loopValve ← mget .loopCmd
  let rodPos ← mget .rodPos
  let fluxSp ← mget .fluxSp
  let heaterCmd ← mget .heaterCmd
  let sprayCmd ← mget .sprayCmd
  let reliefStat ← mget .reliefStatus
  let reliefOpen : ℚ := if reliefStat ≠ 0 then 1 else 0
  let i0 ← getInternal
  let flow1 := flow + (rcpCmd - flow) * (cfg.FLOW_INERTIA * dt)
  let vEff := valveEffNext cfg i0.valveEff coolValve dt
  let lvEff := valveEffNext cfg i0.loopValveEff loopValve dt
  setInternal (fun i => { i with valveEff := vEff, loopValveEff := lvEff })
  mset .loopValvePos lvEff
  let flux1 := flux + (fluxTargetOf fluxSp rodPos - flux) * (cfg.FLUX_INERTIA * dt)
  let flux2 := max 0 (flux1 + gauss 0 cfg.SD_FLUX r.zFlux)
  let heatGain := cfg.HEAT_GAIN_K * flux2 * dt
  let effCool := vEff * lvEff
  let coolLoss :=
    cfg.COOLING_K * (flow1 * effCool) * max 0 (tempOut - cfg.AMBIENT_TEMP) * dt
  let tempIn1 := tempIn + (cfg.AMBIENT_TEMP - tempIn) * 0.001 * dt
  let tempOut1 := tempOut + heatGain - coolLoss
  let tempOut2 := tempOut1 + gauss 0 cfg.SD_TEMP_OUT r.zTempOut
  let pressure1 :=
    pressureNext cfg pressure tempOut2 heaterCmd sprayCmd reliefOpen dts r.zPressure
  let sgPin1 := max 0 (pressure1 - 0.05 + gauss 0 cfg.SD_SG_PIN r.zSgPin)
  let i1 ← getInternal
  let fire := (!i1.spikeActive) && decide (r.uSpike < cfg.RAD_SPIKE_PROB)
  let sUntil :=
    if fire then now + uniformD cfg.RAD_SPIKE_SEC_LO cfg.RAD_SPIKE_SEC_HI r.uDur
    else i1.spikeUntil
  let sLevel :=
    if fire then uniformD (cfg.RAD_BASELINE * 2) cfg.RAD_SPIKE_MAX r.uLevel
    else i1.spikeLevel
  let sActive1 := i1.spikeActive || fire
  let sActive2 := if sActive1 && decide (sUntil ≤ now) then false else sActive1
  setInternal (fun i =>
    { i with spikeActive := sActive2, spikeUntil := sUntil, spikeLevel := sLevel })
  let radV := (if sActive2 then sLevel else cfg.RAD_BASELINE) + gauss 0 cfg.SD_RAD r.zRad
  let radV2 := max 0 radV
  let flow2 := clamp 0 1.2 flow1
  mset .flux flux2
  mset .tempIn tempIn1
  mset .tempOut tempOut2
  mset .pressure pressure1
  mset .flow flow2
  mset .sgPin sgPin1
  mset .rad radV2

set_option maxHeartbeats 2000000 in
theorem tick_read_failure_aborts (cfg : PhysicsCfg) (dtRaw now : ℚ) (r : Rand)
    (st : Store) (i : Internal)
    (h : st.failOn .flux = true ∨ st.failOn .tempIn = true ∨
      st.failOn .tempOut = true ∨ st.failOn .pressure = true ∨
      st.failOn .flow = true ∨ st.failOn .rcpCmd = true ∨
      st.failOn .coolCmd = true ∨ st.failOn .loopCmd = true ∨
      st.failOn .rodPos = true ∨ st.failOn .fluxSp = true ∨
      st.failOn .heaterCmd = true ∨ st.failOn .sprayCmd = true ∨
      st.failOn .reliefStatus = true) :
    tick cfg dtRaw now r st i = (none, st, i) := by
  by_cases h1 : st.failOn .flux = true
  · simp only [tick, bind, Monad.toBind, instMonadPhysM, mget, storeGet, Bool.false_eq_true,
      if_false, if_true, ite_true, ite_false, h1]
  rw [Bool.not_eq_true] at h1
  by_cases h2 : st.failOn .tempIn = true
  · simp only [tick, bind, Monad.toBind, instMonadPhysM, mget, storeGet, Bool.false_eq_true,
      if_false, if_true, ite_true, ite_false, h2, h1]
  rw [Bool.not_eq_true] at h2
  by_cases h3 : st.failOn .tempOut = true
  · simp only [tick, bind, Monad.toBind, instMonadPhysM, mget, storeGet, Bool.false_eq_true,
      if_false, if_true, ite_true, ite_false, h3, h1, h2]
  rw [Bool.not_eq_true] at h3
  by_cases h4 : st.failOn .pressure = true
  · simp only [tick, bind, Monad.toBind, instMonadPhysM, mget, storeGet, Bool.false_eq_true,
      if_false, if_true, ite_true, ite_false, h4, h1, h2, h3]
  rw [Bool.not_eq_true] at h4
  by_cases h5 : st.failOn .flow = true
  · simp only [tick, bind, Monad.toBind, instMonadPhysM, mget, storeGet, Bool.false_eq_true,
      if_false, if_true, ite_true, ite_false, h5, h1, h2, h3, h4]
  rw [Bool.not_eq_true] at h5
  by_cases h6 : st.failOn .rcpCmd = true
  · simp only [tick, bind, Monad.toBind, instMonadPhysM, mget, storeGet, Bool.false_eq_true,
      if_false, if_true, ite_true, ite_false, h6, h1, h2, h3, h4, h5]
  rw [Bool.not_eq_true] at h6
  by_cases h7 : st.failOn .coolCmd = true
  · simp only [tick, bind, Monad.toBind, instMonadPhysM, mget, storeGet, Bool.false_eq_true,
      if_false, if_true, ite_true, ite_false, h7, h1, h2, h3, h4, h5, h6]
  rw [Bool.not_eq_true] at h7
  by_cases h8 : st.failOn .loopCmd = true
  · simp only [tick, bind, Monad.toBind, instMonadPhysM, mget, storeGet, Bool.false_eq_true,
      if_false, if_true, ite_true, ite_false, h8, h1, h2, h3, h4, h5, h6, h7]
  rw [Bool.not_eq_true] at h8
  by_cases h9 : st.failOn .rodPos = true
  · simp only [tick, bind, Monad.toBind, instMonadPhysM, mget, storeGet, Bool.false_eq_true,
      if_false, if_true, ite_true, ite_false, h9, h1, h2, h3, h4, h5, h6, h7, h8]
  rw [Bool.not_eq_true] at h9
  by_cases h10 : st.failOn .fluxSp = true
  · simp only [tick, bind, Monad.toBind, instMonadPhysM, mget, storeGet, Bool.false_eq_true,
      if_false, if_true, ite_true, ite_false, h10, h1, h2, h3, h4, h5, h6, h7, h8, h9]
  rw [Bool.not_eq_true] at h10
  by_cases h11 : st.failOn .heaterCmd = true
  · simp only [tick, bind, Monad.toBind, instMonadPhysM, mget, storeGet, Bool.false_eq_true,
      if_false, if_true, ite_true, ite_false, h11, h1, h2, h3, h4, h5, h6, h7, h8, h9, h10]
  rw [Bool.not_eq_true] at h11
  by_cases h12 : st.failOn .sprayCmd = true
  · simp only [tick, bind, Monad.toBind, instMonadPhysM, mget, storeGet, Bool.false_eq_true,
      if_false, if_true, ite_true, ite_false, h12, h1, h2, h3, h4, h5, h6, h7, h8, h9, h10, h11]
  rw [Bool.not_eq_true] at h12
  by_cases h13 : st.failOn .reliefStatus = true
  · simp only [tick, bind, Monad.toBind, instMonadPhysM, mget, storeGet, Bool.false_eq_true,
      if_false, if_true, ite_true, ite_false, h13, h1, h2, h3, h4, h5, h6, h7, h8, h9, h10, h11, h12]
  rw [Bool.not_eq_true] at h13
  rcases h with h' | h' | h' | h' | h' | h' | h' | h' | h' | h' | h' | h' | h' <;>
    simp_all

set_option maxHeartbeats 2000000 in
theorem tick_sgpin_fail (cfg : PhysicsCfg) (dtRaw now : ℚ) (r : Rand)
    (st : Store) (i : Internal)
    (hf : st.failOn = fun t => decide (t = PTag.sgPin)) :
    (tick cfg dtRaw now r st i).1 = none ∧
    (tick cfg dtRaw now r st i).2.1.val .loopValvePos =
      valveEffNext cfg i.loopValveEff (st.val .loopCmd) (dtClamp dtRaw) ∧
    (tick cfg dtRaw now r st i).2.1.val .flux =
      max 0 (st.val .flux +
        (fluxTargetOf (st.val .fluxSp) (st.val .rodPos) - st.val .flux) *
          (cfg.FLUX_INERTIA * dtClamp dtRaw) +
        gauss 0 cfg.SD_FLUX r.zFlux) ∧
    (tick cfg dtRaw now r st i).2.1.val .tempIn =
      st.val .tempIn + (cfg.AMBIENT_TEMP - st.val .tempIn) * 0.001 * dtClamp dtRaw ∧
    (tick cfg dtRaw now r st i).2.1.val .tempOut =
      st.val .tempOut +
        cfg.HEAT_GAIN_K *
          (max 0 (st.val .flux +
            (fluxTargetOf (st.val .fluxSp) (st.val .rodPos) - st.val .flux) *
              (cfg.FLUX_INERTIA * dtClamp dtRaw) +
            gauss 0 cfg.SD_FLUX r.zFlux)) * dtClamp dtRaw -
        cfg.COOLING_K *
          ((st.val .flow + (st.val .rcpCmd - st.val .flow) *
              (cfg.FLOW_INERTIA * dtClamp dtRaw)) *
            (valveEffNext cfg i.valveEff (st.val .coolCmd) (dtClamp dtRaw) *
              valveEffNext cfg i.loopValveEff (st.val .loopCmd) (dtClamp dtRaw))) *
          max 0 (st.val .tempOut - cfg.AMBIENT_TEMP) * dtClamp dtRaw +
        gauss 0 cfg.SD_TEMP_OUT r.zTempOut ∧
    (tick cfg dtRaw now r st i).2.1.val .pressure =
      pressureNext cfg (st.val .pressure)
        (st.val .tempOut +
          cfg.HEAT_GAIN_K *
            (max 0 (st.val .flux +
              (fluxTargetOf (st.val .fluxSp) (st.val .rodPos) - st.val .flux) *
                (cfg.FLUX_INERTIA * dtClamp dtRaw) +
              gauss 0 cfg.SD_FLUX r.zFlux)) * dtClamp dtRaw -
          cfg.COOLING_K *
            ((st.val .flow + (st.val .rcpCmd - st.val .flow) *
                (cfg.FLOW_INERTIA * dtClamp dtRaw)) *
              (valveEffNext cfg i.valveEff (st.val .coolCmd) (dtClamp dtRaw) *
                valveEffNext cfg i.loopValveEff (st.val .loopCmd) (dtClamp dtRaw))) *
            max 0 (st.val .tempOut - cfg.AMBIENT_TEMP) * dtClamp dtRaw +
          gauss 0 cfg.SD_TEMP_OUT r.zTempOut)
        (st.val .heaterCmd) (st.val .sprayCmd)
        (if st.val .reliefStatus ≠ 0 then 1 else 0) (dtClamp dtRaw / 1000)
        r.zPressure ∧
    (tick cfg dtRaw now r st i).2.1.val .flow =
      clamp 0 1.2 (st.val .flow + (st.val .rcpCmd - st.val .flow) *
        (cfg.FLOW_INERTIA * dtClamp dtRaw)) ∧
    (tick cfg dtRaw now r st i).2.1.val .sgPin = st.val .sgPin ∧
    (tick cfg dtRaw now r st i).2.1.val .rad = st.val .rad := by
  refine ⟨?_, ?_, ?_, ?_, ?_, ?_, ?_, ?_, ?_⟩ <;>
    simp [tick, bind, Monad.toBind, instMonadPhysM, mget, mset, getInternal,
      setInternal, storeGet, storeSet, hf]

set_option maxHeartbeats 2000000 in

/-- The `default` column of `Configs.TAG.TAG_LIST` for the tags the tick
touches. -/
def s0val : PTag → ℚ
  | .flux => 0.8
  | .tempIn => 290
  | .tempOut => 300
  | .pressure => 15
  | .flow => 0.6
  | .sgPin => 14.9
  | .rad => 0.02
  | .loopValvePos => 0.5
  | .rcpCmd => 0.6
  | .coolCmd => 0.5
  | .loopCmd => 0.5
  | .rodPos => 50
  | .fluxSp => 0.9
  | .heaterCmd => 0.2
  | .sprayCmd => 0
  | .reliefStatus => 0

/-- Default-valued store whose backing access fails only for the
steam-generator inlet pressure tag (the second-to-last write of the tick). -/
def sFail : Store := ⟨s0val, fun t => decide (t = PTag.sgPin)⟩

/-- Default-valued store whose backing access fails only for the neutron flux
tag (the very first read of the tick). -/
def sFailFlux : Store := ⟨s0val, fun t => decide (t = PTag.flux)⟩

/-- Internal state matching the default commands: both valve lags at 0.5, no
radiation spike. -/
def i0c : Internal := ⟨0.5, 0.5, false, 0, 0.02⟩

/-- A draw vector with all gauss draws zero and spike-activation draw 1. -/
def r0c : Rand := ⟨0, 0, 0, 0, 0, 1, 0, 0⟩

/-- C5 counterexample: with the steam-generator inlet pressure tag failing,
the tick aborts (result `none`), yet the neutron flux sensor tag — written
earlier in the same tick — retains the aborted tick's value: a partial write.
Concretely, flux moved from its default 0.8 to 0.745. -/
theorem physics_tick_not_atomic :
    (tick defaultPhysics 100 0 r0c sFail i0c).1 = none ∧
    isSensor PTag.flux = true ∧
    (tick defaultPhysics 100 0 r0c sFail i0c).2.1.val .flux ≠ sFail.val .flux := by
  have h := tick_sgpin_fail defaultPhysics 100 0 r0c sFail i0c rfl
  refine ⟨h.1, rfl, ?_⟩
  rw [h.2.2.1]
  norm_num [sFail, s0val, fluxTargetOf, reactivityOf, gauss, dtClamp,
    defaultPhysics, r0c]

/-- C5 amended: any failing tag read or write aborts the remainder of the
tick — the result is the abort report `none`, never a crash — and nothing
after the failing operation runs, but completed writes are not rolled back.
All thirteen reads precede the first write, so a failure at any read leaves
every tag and the internal state unchanged; when the late steam-generator
inlet write is the failing operation, the six writes before it (loop-valve
position, flux, inlet temperature, outlet temperature, pressure, flow) keep
the tick's computed values, while the failing tag and the never-reached
radiation write leave their tags unchanged. -/
theorem physics_tick_prefix_abort (cfg : PhysicsCfg) (dtRaw now : ℚ) (r : Rand)
    (st : Store) (i : Internal) :
    ((st.failOn .flux = true ∨ st.failOn .tempIn = true ∨
        st.failOn .tempOut = true ∨ st.failOn .pressure = true ∨
        st.failOn .flow = true ∨ st.failOn .rcpCmd = true ∨
        st.failOn .coolCmd = true ∨ st.failOn .loopCmd = true ∨
        st.failOn .rodPos = true ∨ st.failOn .fluxSp = true ∨
        st.failOn .heaterCmd = true ∨ st.failOn .sprayCmd = true ∨
        st.failOn .reliefStatus = true) →
      tick cfg dtRaw now r st i = (none, st, i)) ∧
    (st.failOn = (fun t => decide (t = PTag.sgPin)) →
      (tick cfg dtRaw now r st i).1 = none ∧
      (tick cfg dtRaw now r st i).2.1.val .loopValvePos =
        valveEffNext cfg i.loopValveEff (st.val .loopCmd) (dtClamp dtRaw) ∧
      (tick cfg dtRaw now r st i).2.1.val .flux =
        max 0 (st.val .flux +
          (fluxTargetOf (st.val .fluxSp) (st.val .rodPos) - st.val .flux) *
            (cfg.FLUX_INERTIA * dtClamp dtRaw) +
          gauss 0 cfg.SD_FLUX r.zFlux) ∧
      (tick cfg dtRaw now r st i).2.1.val .tempIn =
        st.val .tempIn + (cfg.AMBIENT_TEMP - st.val .tempIn) * 0.001 * dtClamp dtRaw ∧
      (tick cfg dtRaw now r st i).2.1.val .tempOut =
        st.val .tempOut +
          cfg.HEAT_GAIN_K *
            (max 0 (st.val .flux +
              (fluxTargetOf (st.val .fluxSp) (st.val .rodPos) - st.val .flux) *
                (cfg.FLUX_INERTIA * dtClamp dtRaw) +
              gauss 0 cfg.SD_FLUX r.zFlux)) * dtClamp dtRaw -
          cfg.COOLING_K *
            ((st.val .flow + (st.val .rcpCmd - st.val .flow) *
                (cfg.FLOW_INERTIA * dtClamp dtRaw)) *
              (valveEffNext cfg i.valveEff (st.val .coolCmd) (dtClamp dtRaw) *
                valveEffNext cfg i.loopValveEff (st.val .loopCmd) (dtClamp dtRaw))) *
            max 0 (st.val .tempOut - cfg.AMBIENT_TEMP) * dtClamp dtRaw +
          gauss 0 cfg.SD_TEMP_OUT r.zTempOut ∧
      (tick cfg dtRaw now r st i).2.1.val .pressure =
        pressureNext cfg (st.val .pressure)
          (st.val .tempOut +
            cfg.HEAT_GAIN_K *
              (max 0 (st.val .flux +
                (fluxTargetOf (st.val .fluxSp) (st.val .rodPos) - st.val .flux) *
                  (cfg.FLUX_INERTIA * dtClamp dtRaw) +
                gauss 0 cfg.SD_FLUX r.zFlux)) * dtClamp dtRaw -
            cfg.COOLING_K *
              ((st.val .flow + (st.val .rcpCmd - st.val .flow) *
                  (cfg.FLOW_INERTIA * dtClamp dtRaw)) *
                (valveEffNext cfg i.valveEff (st.val .coolCmd) (dtClamp dtRaw) *
                  valveEffNext cfg i.loopValveEff (st.val .loopCmd) (dtClamp dtRaw))) *
              max 0 (st.val .tempOut - cfg.AMBIENT_TEMP) * dtClamp dtRaw +
            gauss 0 cfg.SD_TEMP_OUT r.zTempOut)
          (st.val .heaterCmd) (st.val .sprayCmd)
          (if st.val .reliefStatus ≠ 0 then 1 else 0) (dtClamp dtRaw / 1000)
          r.zPressure ∧
      (tick cfg dtRaw now r st i).2.1.val .flow =
        clamp 0 1.2 (st.val .flow + (st.val .rcpCmd - st.val .flow) *
          (cfg.FLOW_INERTIA * dtClamp dtRaw)) ∧
      (tick cfg dtRaw now r st i).2.1.val .sgPin = st.val .sgPin ∧
      (tick cfg dtRaw now r st i).2.1.val .rad = st.val .rad) :=
  ⟨fun h => tick_read_failure_aborts cfg dtRaw now r st i h,
   fun hf => tick_sgpin_fail cfg dtRaw now r st i hf⟩

/-- Witness for the amended C5: a failing first read leaves store and
internal state exactly as they were, and under the late-write failure the
radiation tag is untouched. -/
theorem physics_tick_prefix_abort_witness :
    tick defaultPhysics 100 0 r0c sFailFlux i0c = (none, sFailFlux, i0c) ∧
    (tick defaultPhysics 100 0 r0c sFail i0c).2.1.val .rad = sFail.val .rad :=
  ⟨(physics_tick_prefix_abort defaultPhysics 100 0 r0c sFailFlux i0c).1
      (Or.inl rfl),
   ((physics_tick_prefix_abort defaultPhysics 100 0 r0c sFail i0c).2
      rfl).2.2.2.2.2.2.2.2⟩

/-- C7: determinism modulo noise.  With the noise configuration zeroed (all
five gauss standard deviations and the spike-activation probability set to 0),
the tick's outcome — abort flag, every written tag and the internal state —
does not depend on the pseudo-random draws: two ticks from the same store,
internal state, time delta and wall clock coincide exactly.  (Draws from
`random.random()` lie in [0,1), hence the nonnegativity assumptions.) -/
theorem physics_tick_deterministic (cfg : PhysicsCfg) (st : Store) (i : Internal)
    (dtRaw now : ℚ) (r1 r2 : Rand)
    (hs1 : cfg.SD_FLUX = 0) (hs2 : cfg.SD_TEMP_OUT = 0) (hs3 : cfg.SD_PRESSURE = 0)
    (hs4 : cfg.SD_SG_PIN = 0) (hs5 : cfg.SD_RAD = 0) (hp : cfg.RAD_SPIKE_PROB = 0)
    (hu1 : 0 ≤ r1.uSpike) (hu2 : 0 ≤ r2.uSpike) :
    tick cfg dtRaw now r1 st i = tick cfg dtRaw now r2 st i := by
  have h1 : ¬ (r1.uSpike < cfg.RAD_SPIKE_PROB) := by rw [hp]; exact not_lt.2 hu1
  have h2 : ¬ (r2.uSpike < cfg.RAD_SPIKE_PROB) := by rw [hp]; exact not_lt.2 hu2
  simp [tick, gauss, pressureNext, hs1, hs2, hs3, hs4, hs5, h1, h2]

/-- The zero-variance noise configuration of the spec: `defaultPhysics` with
every noise standard deviation and the spike probability set to zero. -/
def zeroNoisePhysics : PhysicsCfg :=
  { defaultPhysics with
    RAD_SPIKE_PROB := 0, SD_FLUX := 0, SD_TEMP_OUT := 0, SD_PRESSURE := 0,
    SD_SG_PIN := 0, SD_RAD := 0 }

/-- Two distinct draw vectors. -/
def rNoiseA : Rand := ⟨1, 2, 3, 4, 5, 0.3, 0.5, 0.5⟩

/-- Another draw vector, disagreeing with `rNoiseA` everywhere. -/
def rNoiseB : Rand := ⟨9, 8, 7, 6, 5.5, 0.9, 0.1, 0.2⟩

/-- Witness for C7: under the zero-variance configuration, two runs from the
default store with entirely different draws produce the same result. -/
theorem physics_tick_deterministic_witness :
    tick zeroNoisePhysics 100 0 rNoiseA ⟨s0val, fun _ => false⟩ i0c =
      tick zeroNoisePhysics 100 0 rNoiseB ⟨s0val, fun _ => false⟩ i0c :=
  physics_tick_deterministic zeroNoisePhysics ⟨s0val, fun _ => false⟩ i0c
    100 0 rNoiseA rNoiseB rfl rfl rfl rfl rfl rfl (by norm_num [rNoiseA])
    (by norm_num [rNoiseB])

/-- C8: the tick's pressure update.  Written out, the new pressure is the
0.98/0.02 blend of the previous pressure with the temperature-derived baseline
`14.7 + 0.035·max 0 (tempOut − 290)`, plus the pressurizer contributions
(heater `0.020·cmd·dt`, spray `−0.030·cmd·dt`, relief `−0.080·dt` when open,
each carried through the 0.98 blend weight) plus the noise term; the heater
contribution strictly and proportionally increases pressure, the spray
contribution strictly decreases it, and an open relief valve strictly
decreases it relative to a closed one. -/
theorem pressure_update_model :
    (∀ p t h sp rO dts z,
      pressureNext defaultPhysics p t h sp rO dts z =
        0.98 * p + 0.02 * (14.7 + 0.035 * max 0 (t - 290)) +
          0.98 * (0.020 * h - 0.030 * sp - 0.080 * rO) * dts + 0.002 * z) ∧
    (∀ p t sp rO dts z h1 h2, 0 < dts → h1 < h2 →
      pressureNext defaultPhysics p t h1 sp rO dts z <
        pressureNext defaultPhysics p t h2 sp rO dts z) ∧
    (∀ p t h rO dts z sp1 sp2, 0 < dts → sp1 < sp2 →
      pressureNext defaultPhysics p t h sp2 rO dts z <
        pressureNext defaultPhysics p t h sp1 rO dts z) ∧
    (∀ p t h sp dts z, 0 < dts →
      pressureNext defaultPhysics p t h sp 1 dts z <
        pressureNext defaultPhysics p t h sp 0 dts z) := by
  refine ⟨?_, ?_, ?_, ?_⟩
  · intro p t h sp rO dts z
    simp only [pressureNext, defaultPhysics, gauss]
    ring
  · intro p t sp rO dts z h1 h2 hdts hh
    simp only [pressureNext, defaultPhysics, gauss]
    nlinarith [mul_pos hdts (sub_pos.2 hh)]
  · intro p t h rO dts z sp1 sp2 hdts hsp
    simp only [pressureNext, defaultPhysics, gauss]
    nlinarith [mul_pos hdts (sub_pos.2 hsp)]
  · intro p t h sp dts z hdts
    simp only [pressureNext, defaultPhysics, gauss]
    nlinarith [hdts]

/-- Witness for C8: at the default values (pressure 15, outlet temperature
300, heater 0.2, spray 0, relief closed, dt 0.1 s, zero noise draw) the
formula evaluates as stated, and each monotonicity conclusion holds at sample
points. -/
theorem pressure_update_model_witness :
    pressureNext defaultPhysics 15 300 0.2 0 0 0.1 0 =
      0.98 * 15 + 0.02 * (14.7 + 0.035 * max 0 ((300 : ℚ) - 290)) +
        0.98 * (0.020 * 0.2 - 0.030 * 0 - 0.080 * 0) * 0.1 + 0.002 * 0 ∧
    pressureNext defaultPhysics 15 300 0.2 0 0 0.1 0 <
      pressureNext defaultPhysics 15 300 0.5 0 0 0.1 0 ∧
    pressureNext defaultPhysics 15 300 0.2 0.4 0 0.1 0 <
      pressureNext defaultPhysics 15 300 0.2 0.1 0 0.1 0 ∧
    pressureNext defaultPhysics 15 300 0.2 0 1 0.1 0 <
      pressureNext defaultPhysics 15 300 0.2 0 0 0.1 0 :=
  ⟨pressure_update_model.1 15 300 0.2 0 0 0.1 0,
   pressure_update_model.2.1 15 300 0 0 0.1 0 0.2 0.5 (by norm_num) (by norm_num),
   pressure_update_model.2.2.1 15 300 0.2 0 0.1 0 0.1 0.4 (by norm_num) (by norm_num),
   pressure_update_model.2.2.2 15 300 0.2 0 0.1 0 (by norm_num)⟩

/-- C10: for every rod position — including out-of-range values written
through the manual path or by an attack — the reactivity used by the flux
update is at least 0.05, and therefore a positive flux setpoint always yields
a positive flux target: full insertion (position 100 or beyond) can never
drive the target to zero. -/
theorem reactivity_lower_bound (rodPos fluxSp : ℚ) :
    0.05 ≤ reactivityOf rodPos ∧
    (0 < fluxSp → 0 < fluxTargetOf fluxSp rodPos) := by
  constructor
  · exact le_max_left _ _
  · intro hsp
    have hr : (0 : ℚ) < reactivityOf rodPos :=
      lt_of_lt_of_le (by norm_num) (le_max_left 0.05 (1 - rodPos / 120))
    exact lt_max_of_lt_right (mul_pos hsp hr)

/-- Witness for C10: rods pushed past full insertion (position 150) still give
reactivity at least 0.05, and the default setpoint 0.9 keeps the flux target
positive. -/
theorem reactivity_lower_bound_witness :
    (0.05 : ℚ) ≤ reactivityOf 150 ∧ (0 : ℚ) < fluxTargetOf 0.9 150 :=
  ⟨(reactivity_lower_bound 150 0.9).1,
   (reactivity_lower_bound 150 0.9).2 (by norm_num)⟩

/-! ### AttackDispatcher (src/src/AttackerRemote.py) -/

/-- Events of the dispatcher interleaving: a message arriving on the MQTT
callback thread (`on_message`, lines 161-166), the dispatch loop taking a
queued message and raising the in-flight flag (`_logic` lines 37-38 with
`process_messages` line 169), and a command execution completing and clearing
the flag (line 216). -/
inductive DEv (M : Type)
  | arrive (m : M)
  | start
  | finish

/-- Dispatcher state: the command in flight (the `applying_attack` flag
together with the message being processed), the pending queue
(`attacksQueue`), and the histories of discarded and executed commands.  The
in-flight slot is an `Option`, so at most one command is ever in flight. -/
structure DState (M : Type) where
  inflight : Option M
  queue : List M
  discarded : List M
  executed : List M

/-- Dispatcher start state: idle, nothing queued. -/
def dInit {M : Type} : DState M := ⟨none, [], [], []⟩

/-- One interleaving step.  `arrive` models `on_message` as one atomic check
of `applying_attack`: discard when a command is in flight, else enqueue.
`start` dequeues the head only when idle; `finish` completes the in-flight
command. -/
def dStep {M : Type} : DState M → DEv M → DState M
  | s, .arrive m =>
    if s.inflight.isSome then { s with discarded := s.discarded ++ [m] }
    else { s with queue := s.queue ++ [m] }
  | s, .start =>
    match s.inflight, s.queue with
    | none, m :: rest => { s with inflight := some m, queue := rest }
    | _, _ => s
  | s, .finish =>
    match s.inflight with
    | some m => { s with inflight := none, executed := s.executed ++ [m] }
    | none => s

/-- Run a trace of dispatcher events. -/
def dRun {M : Type} (s : DState M) (tr : List (DEv M)) : DState M :=
  tr.foldl dStep s

theorem dRun_avoid {M : Type} (m : M) :
    ∀ (tr : List (DEv M)) (s : DState M),
      m ∉ s.queue → s.inflight ≠ some m → m ∉ s.executed →
      (∀ pre suf, tr = pre ++ DEv.arrive m :: suf →
        (dRun s pre).inflight.isSome = true) →
      m ∉ (dRun s tr).queue ∧ (dRun s tr).inflight ≠ some m ∧
        m ∉ (dRun s tr).executed := by
  intro tr
  induction tr with
  | nil => intro s h1 h2 h3 _; exact ⟨h1, h2, h3⟩
  | cons e rest ih =>
    intro s h1 h2 h3 hbusy
    have hnext : ∀ pre suf, rest = pre ++ DEv.arrive m :: suf →
        (dRun (dStep s e) pre).inflight.isSome = true := by
      intro pre suf hsplit
      have := hbusy (e :: pre) suf (by rw [hsplit]; rfl)
      simpa [dRun] using this
    have hinv : m ∉ (dStep s e).queue ∧ (dStep s e).inflight ≠ some m ∧
        m ∉ (dStep s e).executed := by
      cases e with
      | arrive m' =>
        by_cases hb : s.inflight.isSome
        · simp [dStep, hb, h1, h2, h3]
        · by_cases hm : m' = m
          · exfalso
            apply hb
            have := hbusy [] rest (by simp [hm])
            simpa [dRun] using this
          · simp [dStep, hb, h1, h2, h3, List.mem_append, hm]
            exact fun hcontra => hm hcontra.symm
      | start =>
        cases hs : s.inflight with
        | some m'' => simp [dStep, hs, h1, h2, h3, hs ▸ h2]
        | none =>
          cases hq : s.queue with
          | nil => simp [dStep, hs, hq, h1, h2, h3]
          | cons m'' rest' =>
            have hq' := hq ▸ h1
            simp only [List.mem_cons, not_or] at hq'
            simp [dStep, hs, hq, hq'.1, hq'.2, h3]
            intro hcontra
            exact hq'.1 hcontra.symm
      | finish =>
        cases hs : s.inflight with
        | none => simp [dStep, hs, h1, h2, h3]
        | some m'' =>
          have hne : m'' ≠ m := by
            intro hcontra
            exact h2 (by rw [hs, hcontra])
          simp [dStep, hs, h1, h3, List.mem_append]
          exact fun hcontra => hne hcontra.symm
    have := ih (dStep s e) hinv.1 hinv.2.1 hinv.2.2 hnext
    simpa [dRun] using this

/-- C3: drop-on-busy.  While a command is in flight, an arriving command goes
to the discard list — the queue, the in-flight slot and the execution history
are untouched; any message all of whose arrivals happen while a command is in
flight is never queued, never in flight and never executed anywhere along the
trace; and once the in-flight slot is free an arriving command is enqueued
again.  (The in-flight slot is an `Option`, so at most one command is in
flight by construction.) -/
theorem dispatcher_drop_on_busy :
    (∀ (M : Type) (s : DState M) (m : M), s.inflight.isSome = true →
      dStep s (.arrive m) = { s with discarded := s.discarded ++ [m] }) ∧
    (∀ (M : Type) (s : DState M) (m : M), s.inflight = none →
      dStep s (.arrive m) = { s with queue := s.queue ++ [m] }) ∧
    (∀ (M : Type) (m : M) (tr : List (DEv M)),
      (∀ pre suf, tr = pre ++ DEv.arrive m :: suf →
        (dRun dInit pre).inflight.isSome = true) →
      m ∉ (dRun dInit tr).queue ∧ (dRun dInit tr).inflight ≠ some m ∧
        m ∉ (dRun dInit tr).executed) := by
  refine ⟨?_, ?_, ?_⟩
  · intro M s m h
    simp [dStep, h]
  · intro M s m h
    simp [dStep, h]
  · intro M m tr hbusy
    exact dRun_avoid m tr dInit (by simp [dInit]) (by simp [dInit])
      (by simp [dInit]) hbusy

/-- Witness for C3: with command 1 in flight, arriving command 2 is discarded;
with the slot free it is enqueued. -/
theorem dispatcher_drop_on_busy_witness :
    dStep (⟨some 1, [], [], []⟩ : DState ℕ) (DEv.arrive 2) =
      ⟨some 1, [], [2], []⟩ ∧
    dStep (⟨none, [], [], []⟩ : DState ℕ) (DEv.arrive 2) =
      ⟨none, [2], [], []⟩ :=
  ⟨dispatcher_drop_on_busy.1 ℕ ⟨some 1, [], [], []⟩ 2 rfl,
   dispatcher_drop_on_busy.2.1 ℕ ⟨none, [], [], []⟩ 2 rfl⟩

/-- JSON values appearing in attack command messages: strings and numbers. -/
inductive JVal
  | str (s : String)
  | num (q : ℚ)
  deriving DecidableEq

/-- A parsed attack command message: a JSON object as key/value pairs. -/
abbrev Msg6 := List (String × JVal)

/-- `AttackerRemote.find_tag_in_msg` (lines 218-222): the field's value, or an
error when the field is absent. -/
def find_tag_in_msg (msg : Msg6) (tag : String) : Except String JVal :=
  match msg.lookup tag with
  | none => .error ("Cannot find tag name: (" ++ tag ++ ") in message!")
  | some v => .ok v

/-- The legacy constant fallback of `find_device_address` (lines 235-240). -/
def deviceFallback (name key : String) : Except String String :=
  if key = "plc1" then .ok "192.168.0.11"
  else if key = "plc2" then .ok "192.168.0.12"
  else if key = "hmi1" then .ok "192.168.0.21"
  else if key = "hmi2" then .ok "192.168.0.22"
  else .error ("target:(" ++ name ++ ") is not recognized!")

/-- `AttackerRemote.find_device_address` (lines 224-240), with `env` modelling
`os.getenv`: an environment override wins when set and nonempty, then the
legacy constants, else an error; a non-string target fails at `.lower()`. -/
def find_device_address (env : String → Option String) (device : JVal) :
    Except String String :=
  match device with
  | .num _ => .error "AttributeError: lower on a non-string target"
  | .str name =>
    let key := name.toLower
    let envVal :=
      if key = "plc1" then env "PLC1_HOST"
      else if key = "plc2" then env "PLC2_HOST"
      else if key = "hmi1" then env "HMI1_HOST"
      else if key = "hmi2" then env "HMI2_HOST"
      else none
    match envVal with
    | some s => if s = "" then deviceFallback name key else .ok s
    | none => deviceFallback name key

/-- The attack primitive invocations `process_messages` can dispatch to. -/
inductive AttackAct
  | scanScapy
  | ddos (timeout : JVal) (target : String) (numProcess : ℕ)
  | scanNmap
  | mitm (target : String) (timeout : JVal)
  | replayA (target : String) (timeout : JVal) (replayCount : JVal)
  deriving DecidableEq

/-- The body of `AttackerRemote.process_messages` (lines 171-212): parse the
`attack` discriminator and dispatch, fetching each required parameter with
`find_tag_in_msg` in program order; an unrecognized kind raises. -/
def processBody (env : String → Option String) (msg : Msg6) :
    Except String AttackAct := do
  let attack ← find_tag_in_msg msg "attack"
  if attack = JVal.str "ip-scan" then
    return AttackAct.scanScapy
  else if attack = JVal.str "ddos" then
    let timeout ← find_tag_in_msg msg "timeout"
    let target ← find_tag_in_msg msg "target"
    let addr ← find_device_address env target
    return AttackAct.ddos timeout addr 5
  else if attack = JVal.str "port-scan" then
    return AttackAct.scanNmap
  else if attack = JVal.str "mitm" then
    let mode ← find_tag_in_msg msg "mode"
    let timeout ← find_tag_in_msg msg "timeout"
    match mode with
    | JVal.num _ => Except.error "AttributeError: lower on mitm mode"
    | JVal.str ms =>
      if ms.toLower = "link" then do
        let t1 ← find_tag_in_msg msg "target1"
        let t2 ← find_tag_in_msg msg "target2"
        let a1 ← find_device_address env t1
        let a2 ← find_device_address env t2
        return AttackAct.mitm (a1 ++ "," ++ a2) timeout
      else
        return AttackAct.mitm "192.168.0.1/24" timeout
  else if attack = JVal.str "replay" then
    let mode ← find_tag_in_msg msg "mode"
    let timeout ← find_tag_in_msg msg "timeout"
    let replay ← find_tag_in_msg msg "replay"
    match mode with
    | JVal.num _ => Except.error "AttributeError: lower on replay mode"
    | JVal.str ms =>
      if ms.toLower = "link" then do
        let t1 ← find_tag_in_msg msg "target1"
        let t2 ← find_tag_in_msg msg "target2"
        let a1 ← find_device_address env t1
        let a2 ← find_device_address env t2
        return AttackAct.replayA (a1 ++ "," ++ a2) timeout replay
      else
        return AttackAct.replayA "192.168.0.1/24" timeout replay
  else
    Except.error ("attack type is not recognized!")

/-- Command-processing state: the `applying_attack` flag plus the histories of
executed actions and logged errors. -/
structure DispState6 where
  applying : Bool
  executed : List AttackAct
  errors : List String

/-- `AttackerRemote.process_messages` (lines 168-216) as a state transformer:
the flag is raised on entry, the body runs, any raised error is caught and
logged (`self.report`), and the flag is cleared on exit on every path. -/
def process_messages (env : String → Option String) (s : DispState6)
    (msg : Msg6) : DispState6 :=
  match processBody env msg with
  | .ok a =>
      { applying := false, executed := s.executed ++ [a], errors := s.errors }
  | .error e =>
      { applying := false, executed := s.executed, errors := s.errors ++ [e] }

/-- C6: a malformed command fails alone.  A missing `attack` field, an
unrecognized attack kind, and a missing required parameter for each kind
(`timeout`/`target` for ddos; `mode`/`timeout` for mitm, plus
`target1`/`target2` in link mode; `mode`/`timeout`/`replay` for replay) each
make the body return an error; `process_messages` logs that error, executes
nothing, and on every path — success or error — leaves the in-flight flag
cleared, ready for the next command. -/
theorem attacker_bad_command_isolated (env : String → Option String) :
    (∀ msg : Msg6, msg.lookup "attack" = none →
      ∃ e, processBody env msg = .error e) ∧
    (∀ (msg : Msg6) (v : JVal), msg.lookup "attack" = some v →
      v ∉ [JVal.str "ip-scan", JVal.str "ddos", JVal.str "port-scan",
        JVal.str "mitm", JVal.str "replay"] →
      ∃ e, processBody env msg = .error e) ∧
    (∀ msg : Msg6, msg.lookup "attack" = some (JVal.str "ddos") →
      (msg.lookup "timeout" = none ∨ msg.lookup "target" = none) →
      ∃ e, processBody env msg = .error e) ∧
    (∀ msg : Msg6, msg.lookup "attack" = some (JVal.str "mitm") →
      (msg.lookup "mode" = none ∨ msg.lookup "timeout" = none) →
      ∃ e, processBody env msg = .error e) ∧
    (∀ (msg : Msg6) (ms : String), msg.lookup "attack" = some (JVal.str "mitm") →
      msg.lookup "mode" = some (JVal.str ms) → ms.toLower = "link" →
      (msg.lookup "target1" = none ∨ msg.lookup "target2" = none) →
      ∃ e, processBody env msg = .error e) ∧
    (∀ msg : Msg6, msg.lookup "attack" = some (JVal.str "replay") →
      (msg.lookup "mode" = none ∨ msg.lookup "timeout" = none ∨
        msg.lookup "replay" = none) →
      ∃ e, processBody env msg = .error e) ∧
    (∀ (s : DispState6) (msg : Msg6),
      (process_messages env s msg).applying = false) ∧
    (∀ (s : DispState6) (msg : Msg6) (e : String),
      processBody env msg = .error e →
      (process_messages env s msg).errors = s.errors ++ [e] ∧
      (process_messages env s msg).executed = s.executed) := by
  refine ⟨?_, ?_, ?_, ?_, ?_, ?_, ?_, ?_⟩
  · intro msg h
    simp [processBody, find_tag_in_msg, h, bind, Except.bind]
  · intro msg v h hv
    simp only [List.mem_cons, List.not_mem_nil, or_false, not_or] at hv
    simp [processBody, find_tag_in_msg, h, hv.1, hv.2.1, hv.2.2.1, hv.2.2.2.1,
      hv.2.2.2.2, bind, Except.bind]
  · intro msg h hc
    rcases hc with ht | htg
    · simp [processBody, find_tag_in_msg, h, ht, bind, Except.bind]
    · rcases ht : msg.lookup "timeout" with _ | tv <;>
        simp [processBody, find_tag_in_msg, h, ht, htg, bind, Except.bind]
  · intro msg h hc
    rcases hc with hm | ht
    · simp [processBody, find_tag_in_msg, h, hm, bind, Except.bind]
    · rcases hm : msg.lookup "mode" with _ | mv <;>
        simp [processBody, find_tag_in_msg, h, hm, ht, bind, Except.bind]
  · intro msg ms h hm hl hc
    rcases hc with h1 | h2
    · rcases ht : msg.lookup "timeout" with _ | tv <;>
        simp [processBody, find_tag_in_msg, h, hm, ht, hl, h1, bind, Except.bind]
    · rcases ht : msg.lookup "timeout" with _ | tv
      · simp [processBody, find_tag_in_msg, h, hm, ht, bind, Except.bind]
      · rcases h1 : msg.lookup "target1" with _ | t1
        · simp [processBody, find_tag_in_msg, h, hm, ht, hl, h1, h2, bind,
            Except.bind]
        · rcases ha : find_device_address env t1 with e1 | a1 <;>
            simp [processBody, find_tag_in_msg, h, hm, ht, hl, h1, h2, ha, bind,
              Except.bind]
  · intro msg h hc
    rcases hc with hm | ht | hr
    · simp [processBody, find_tag_in_msg, h, hm, bind, Except.bind]
    · rcases hm : msg.lookup "mode" with _ | mv <;>
        simp [processBody, find_tag_in_msg, h, hm, ht, bind, Except.bind]
    · rcases hm : msg.lookup "mode" with _ | mv
      · simp [processBody, find_tag_in_msg, h, hm, bind, Except.bind]
      · rcases ht : msg.lookup "timeout" with _ | tv <;>
          simp [processBody, find_tag_in_msg, h, hm, ht, hr, bind, Except.bind]
  · intro s msg
    rcases hp : processBody env msg with e | a <;> simp [process_messages, hp]
  · intro s msg e he
    simp [process_messages, he]

/-- Witness for C6: the unrecognized attack kind `nuke` yields an error, and
after processing it the in-flight flag is cleared even though it was set on
entry. -/
theorem attacker_bad_command_isolated_witness :
    (∃ e, processBody (fun _ => none) [("attack", JVal.str "nuke")] =
      .error e) ∧
    (process_messages (fun _ => none) ⟨true, [], []⟩
      [("attack", JVal.str "nuke")]).applying = false :=
  ⟨(attacker_bad_command_isolated (fun _ => none)).2.1
      [("attack", JVal.str "nuke")] (JVal.str "nuke") (by simp [List.lookup])
      (by simp),
   (attacker_bad_command_isolated (fun _ => none)).2.2.2.2.2.2.1
      ⟨true, [], []⟩ [("attack", JVal.str "nuke")]⟩
